import Mathlib

/-!
Verification of the cookie extraction and classification pipeline of the
tracking-cookies / browser-fingerprinting analyzer.

The development shallowly embeds the two core modules:

* `cookie_analyzer/extractor.py` — reading Chromium-like and Firefox-like
  cookie-store rows and normalizing them into canonical cookie records,
  including the Chrome epoch-1601 time codec;
* `cookie_analyzer/classifier.py` — the ordered heuristic classifier
  (tracking verdict, third-party verdict, reasons, feature flags) and the
  per-batch summary fold.

Modelling conventions:

* Python floats are modelled by exact rationals (`ℚ`); the numeric claims
  checked here involve values that are exactly representable, and
  `round(x, 1)` is modelled by exact rounding of `10 * x` to an integer.
* A Python dict key that may be missing (or set to Python `None`) is an
  `Option` field; `dict.get(k, default)` becomes `Option.getD`.
* SQLite integer columns that the code passes through `bool(...)` are kept
  as numbers and compared with `!= 0`, mirroring Python truthiness.
* The quote characters that the Python f-strings place around interpolated
  values in reason messages are omitted from the embedded message strings;
  no property proved here depends on the exact text of a reason, only on
  which rule produced it and on non-emptiness.
* Python set objects (`all_domains`) are modelled as deduplicated lists;
  only membership and cardinality of the set are ever consumed, and both
  are independent of iteration order.
-/

namespace CookieAnalyzer

/-- Python `needle in hay` on strings: substring containment. -/
def substr (needle hay : String) : Bool :=
  decide (needle.toList <:+: hay.toList)

/-- Python `s.lstrip(".")`: drop every leading dot. -/
def stripDots (s : String) : String :=
  String.mk (s.toList.dropWhile (fun ch => ch == '.'))

/-- Python `s.endswith(suf)`. -/
def endsWith (suf s : String) : Bool :=
  suf.toList.isSuffixOf s.toList

/-- Python `s.startswith(pre)`. -/
def startsWith (pre s : String) : Bool :=
  pre.toList.isPrefixOf s.toList

/-- Python `s.lower()` (the strings in this code base are ASCII). -/
def toLowerStr (s : String) : String :=
  String.mk (s.toList.map Char.toLower)

/-- Python `s.split(".")`: e.g. `""` gives `[""]`, `"a.b"` gives
`["a", "b"]`, and empty pieces are kept. -/
def splitDots (s : String) : List String :=
  (s.toList.splitOn '.').map String.mk

/-! ## Extractor embedding (`cookie_analyzer/extractor.py`) -/

/-- `CookieExtractor._chrome_time_to_unix`: Chrome timestamps are integer
microseconds since 1601-01-01; `0` (and Python `None`, folded into `0`
here) means no timestamp and maps to `none`; otherwise
`unix_seconds = value / 1_000_000 - 11644473600`. -/
def chromeTimeToUnix (t : Nat) : Option ℚ :=
  if t = 0 then none else some ((t : ℚ) / 1000000 - 11644473600)

/-- The canonical cookie record built by the extractor and consumed by the
classifier. Fields that a producing dialect may omit, or that a classifier
input dict may lack, are `Option`; for `name`/`value`/`path` the classifier
uses `get(k, "")`, which cannot distinguish absence from `""`, so they are
plain strings. `sameSite := none` covers both an absent key and a key set
to Python `None` (both fail the `== 0` test in the classifier). -/
structure Cookie where
  name : String := ""
  value : String := ""
  domain : Option String := none
  path : String := ""
  expires : Option ℚ := none
  secure : Bool := false
  httpOnly : Bool := false
  created : Option ℚ := none
  lastAccessed : Option ℚ := none
  session : Bool := false
  persistent : Bool := false
  sameSite : Option Int := none
  sourceScheme : Option Int := none
deriving DecidableEq, Repr

/-- One row of the Chromium `cookies` table. In the reduced (older) schema
the `samesite` and `source_scheme` columns are missing; the code then
stores Python `None`, modelled by `none` in those two fields. -/
structure ChromeRow where
  host_key : String := ""
  name : String := ""
  value : String := ""
  path : String := ""
  expires_utc : Nat := 0
  is_secure : Nat := 0
  is_httponly : Nat := 0
  creation_utc : Nat := 0
  last_access_utc : Nat := 0
  has_expires : Nat := 0
  is_persistent : Nat := 0
  samesite : Option Int := none
  source_scheme : Option Int := none
deriving DecidableEq, Repr

/-- One row of the Firefox `moz_cookies` table. -/
structure FirefoxRow where
  host : String := ""
  name : String := ""
  value : String := ""
  path : String := ""
  expiry : Int := 0
  isSecure : Nat := 0
  isHttpOnly : Nat := 0
  creationTime : Int := 0
  lastAccessed : Int := 0
deriving DecidableEq, Repr

/-- The row-to-dict mapping inside `CookieExtractor._extract_from_chrome`:
`expires` goes through the Chrome time codec guarded by `if row[4]`,
`session = not bool(has_expires)`, `persistent = bool(is_persistent)`. -/
def chromeRowToCookie (r : ChromeRow) : Cookie :=
  { domain := some r.host_key
    name := r.name
    value := r.value
    path := r.path
    expires := if r.expires_utc ≠ 0 then chromeTimeToUnix r.expires_utc else none
    secure := r.is_secure != 0
    httpOnly := r.is_httponly != 0
    created := if r.creation_utc ≠ 0 then chromeTimeToUnix r.creation_utc else none
    lastAccessed := if r.last_access_utc ≠ 0 then chromeTimeToUnix r.last_access_utc else none
    session := !(r.has_expires != 0)
    persistent := r.is_persistent != 0
    sameSite := r.samesite
    sourceScheme := r.source_scheme }

/-- The row-to-dict mapping inside `CookieExtractor._extract_from_firefox`:
`expires` is the raw `expiry` column copied verbatim (`"expires": row[4]`),
including the literal `0`; `session = (expiry == 0)`,
`persistent = (expiry != 0)`; `creationTime`/`lastAccessed` are divided by
1e6 when nonzero. The produced dict has no `sameSite`/`sourceScheme` keys. -/
def firefoxRowToCookie (r : FirefoxRow) : Cookie :=
  { domain := some r.host
    name := r.name
    value := r.value
    path := r.path
    expires := some (r.expiry : ℚ)
    secure := r.isSecure != 0
    httpOnly := r.isHttpOnly != 0
    created := if r.creationTime ≠ 0 then some ((r.creationTime : ℚ) / 1000000) else none
    lastAccessed := if r.lastAccessed ≠ 0 then some ((r.lastAccessed : ℚ) / 1000000) else none
    session := r.expiry == 0
    persistent := r.expiry != 0
    sameSite := none
    sourceScheme := none }

/-- What a cookie-store file turns out to contain when opened:
a readable Chromium `cookies` table (either schema variant, the reduced
one leaving `samesite`/`source_scheme` at `none`), a readable Firefox
`moz_cookies` table, or a file that cannot be read as the expected format
(missing file, wrong format, wrong tables — every condition that raises
inside the `_extract_from_*` helpers). -/
inductive StoreData where
  | chrome (rows : List ChromeRow)
  | firefox (rows : List FirefoxRow)
  | unreadable
deriving DecidableEq, Repr

/-- `CookieExtractor.extract`: dispatch on the (lower-cased) browser name;
every failure path — the `ValueError` for an unsupported browser caught in
`extract` itself, and any sqlite/schema error caught inside
`_extract_from_chrome` / `_extract_from_firefox` — only prints a message
and leaves the cookie list empty, so `extract` returns `[]`. -/
def extract (browser : String) (store : StoreData) : List Cookie :=
  let b := toLowerStr browser
  if b = "chrome" || b = "edge" then
    match store with
    | .chrome rows => rows.map chromeRowToCookie
    | _ => []
  else if b = "firefox" then
    match store with
    | .firefox rows => rows.map firefoxRowToCookie
    | _ => []
  else []

/-! ## Classifier embedding (`cookie_analyzer/classifier.py`) -/

/-- `CookieClassifier.tracking_domains` (constructor constant, in source
order; the duplicate entry `facebook` is kept as in the source). -/
def trackingDomains : List String :=
  ["analytics", "tracker", "pixel", "ad.", "ads.", "adservice", "doubleclick",
   "google-analytics", "googletagmanager", "googlesyndication", "facebook",
   "twitter", "linkedin", "yahoo", "criteo", "quantserve", "mediamath",
   "adroll", "taboola", "outbrain", "pubmatic", "rubiconproject", "facebook",
   "adnxs", "amazon-adsystem", "scorecardresearch", "casalemedia"]

/-- `CookieClassifier.tracking_prefixes` (constructor constant, source order). -/
def trackingPrefixes : List String :=
  ["_ga", "_gid", "_gcl", "_fbp", "_uetsid", "_uetvid", "_hjid", "_hj",
   "AMP_TOKEN", "AMCV_", "AMCVS_", "NID", "IDE", "uuid", "UIDR", "VISITOR",
   "segment_", "track", "mp_", "mixpanel", "amplitude", "parsely_",
   "personalization_id", "utag_", "intercom-", "km_", "id"]

/-- `expanded_tracking_domains` inside `_is_third_party_cookie`, source order. -/
def expandedTrackingDomains : List String :=
  ["google-analytics", "doubleclick", "analytics", "segment.io", "mixpanel",
   "amplitude", "chartbeat", "clarity.ms", "hotjar", "parsely", "stats",
   "adsystem", "adnxs", "adserver", "adsrvr", "pubmatic", "rubiconproject",
   "taboola", "outbrain", "criteo", "mediamath", "advertising.com",
   "scorecardresearch", "qualtrics", "quantserve", "trustarc", "moatads",
   "mathtag", "techtarget", "fingerprint", "muid", "onetrust",
   "facebook", "fbcdn", "twitter", "linkedin", "pinterest", "tiktok",
   "sharedid", "rlcdn", "bizible", "demdex", "optimizely", "branch.io"]

/-- `tracking_cookie_names` inside `_is_third_party_cookie`. -/
def trackingCookieNames : List String :=
  ["_ga", "_gcl_au", "_fbp", "_scid", "_uetsid", "_uetvid",
   "MUID", "NID", "_sharedid", "OptanonConsent", "cf_clearance"]

/-- `third_party_patterns` inside `_is_third_party_cookie`, flattened in the
iteration order of the Python dict (insertion order: tracking, advertising,
consent, sharing); the category key is not used in the emitted reason. -/
def thirdPartyPatterns : List String :=
  ["tracking", "tracker", "analytics", "pixel", "stat",
   "ad", "ads", "advert", "banner", "sponsor", "marketing",
   "consent", "gdpr", "ccpa", "privacy", "cookie-law",
   "share", "social", "connect", "widget"]

/-- Rule 4 of `_is_third_party_cookie`:
`cookie.get("sameSite", -1) == 0 and cookie.get("secure", False)`.
An absent key (default `-1`) and a key holding Python `None` both fail the
`== 0` test, so only `some 0` fires. -/
def sameSiteNoneSecure (c : Cookie) : Bool :=
  (c.sameSite == some (0 : Int)) && c.secure

/-- The last-two-label comparison in rule 5 of `_is_third_party_cookie`:
`len(parts1) >= 2 and len(parts2) >= 2 and parts1[-2:] == parts2[-2:]`. -/
def sharesBase (a b : String) : Bool :=
  let p1 := splitDots a
  let p2 := splitDots b
  decide (2 ≤ p1.length) && decide (2 ≤ p2.length) &&
    (p1.drop (p1.length - 2) == p2.drop (p2.length - 2))

/-- The loop of rule 5 of `_is_third_party_cookie`: the cookie domain is
first-party when it equals, is a dot-suffix of, or shares its last two
labels with some member of the Domain Index. The Python loop returns at
the first matching member; whether any member matches does not depend on
the iteration order of the set. -/
def firstPartyMatch (cd : String) (allDomains : List String) : Bool :=
  allDomains.any fun d =>
    cd == d || endsWith ("." ++ d) cd || sharesBase cd d

/-- `CookieClassifier._is_third_party_cookie`: the ordered, short-circuiting
third-party test, returning the verdict with its reason string. -/
def isThirdPartyCookie (c : Cookie) (allDomains : List String) : Bool × String :=
  let cd := stripDots (c.domain.getD "")
  if cd = "" then (false, "")
  else
    match expandedTrackingDomains.find? (fun t => substr t cd) with
    | some t => (true, "Domain contains known tracking pattern " ++ t)
    | none =>
      if trackingCookieNames.contains c.name then
        (true, "Cookie name matches known tracking cookie " ++ c.name)
      else if sameSiteNoneSecure c then
        (true, "SameSite=None and Secure attribute indicates third-party usage")
      else if firstPartyMatch cd allDomains then (false, "")
      else
        match thirdPartyPatterns.find? (fun p => substr p (toLowerStr cd)) with
        | some p => (true, "Domain contains known third-party pattern " ++ p)
        | none => (true, "Domain does not match any first-party domain and is likely third-party")

/-- The classification dict attached to each cookie; the `features` mapping
is flattened into one field per key. -/
structure Classification where
  is_tracking : Bool
  reasons : List String
  is_third_party : Bool
  known_tracker : Bool
  fingerprinting_related : Bool
  long_expiration : Bool
  third_party : Bool
  suspicious_name : Bool
deriving DecidableEq, Repr

/-- The identifier-term sweep of `_classify_cookie`:
`re.search(r"(id|uid|user|visitor|session|tracking)", name.lower())`,
i.e. the lower-cased name contains one of the six alternatives. -/
def suspiciousNameTerms : List String :=
  ["id", "uid", "user", "visitor", "session", "tracking"]

/-- The fingerprinting-term sweep of `_classify_cookie`. -/
def fingerprintTerms : List String :=
  ["canvas", "webgl", "audio", "fingerprint", "device"]

/-- The long-expiration test of `_classify_cookie`:
`(datetime.fromtimestamp(expires) - datetime.now()).days > 365`.
`timedelta.days` is the floor of the difference in whole days. The
`try/except` around `fromtimestamp` (which can only fail for timestamps
outside the platform range) is modelled as total. `now` is the evaluation
instant in Unix seconds, passed explicitly. -/
def longExpiration (now : ℚ) (expires : Option ℚ) : Bool :=
  match expires with
  | some e => decide ((365 : ℤ) < Int.floor ((e - now) / 86400))
  | none => false

/-- `CookieClassifier._classify_cookie`: evaluate every tracking signal in
source order (non-short-circuiting; each match appends its reason), taking
the third-party verdict from `isThirdPartyCookie`. -/
def classifyCookie (now : ℚ) (c : Cookie) (allDomains : List String) : Classification :=
  let name := c.name
  let domain := stripDots (c.domain.getD "")
  let prefixHit := trackingPrefixes.find? fun p => startsWith (toLowerStr p) (toLowerStr name)
  let suspicious := suspiciousNameTerms.any fun t => substr t (toLowerStr name)
  let domainHit := trackingDomains.find? fun t => substr t domain
  let tp := isThirdPartyCookie c allDomains
  let longExp := longExpiration now c.expires
  let fingerprint := fingerprintTerms.any fun t => substr t (toLowerStr name)
  let reasons :=
    (match prefixHit with
     | some p => ["Name starts with tracking prefix " ++ p]
     | none => [])
    ++ (if suspicious then ["Name contains tracking identifiers"] else [])
    ++ (match domainHit with
        | some t => ["Domain contains known tracking pattern " ++ t]
        | none => [])
    ++ (if tp.1 then [tp.2] else [])
    ++ (if longExp then
          [match c.expires with
           | some e => "Long-lived cookie (expires in " ++
               toString (Int.floor ((e - now) / 86400)) ++ " days)"
           | none => ""]
        else [])
    ++ (if fingerprint then ["Cookie name suggests fingerprinting"] else [])
  { is_tracking := prefixHit.isSome || suspicious || domainHit.isSome
      || tp.1 || longExp || fingerprint
    reasons := reasons
    is_third_party := tp.1
    known_tracker := prefixHit.isSome || domainHit.isSome
    fingerprinting_related := fingerprint
    long_expiration := longExp
    third_party := tp.1
    suspicious_name := suspicious }

/-- The `extracted_domains` set of `classify_cookies`: the stripped domain
of every cookie that has a `domain` key, as a deduplicated list. -/
def extractedDomains (cookies : List Cookie) : List String :=
  ((cookies.filterMap Cookie.domain).map stripDots).dedup

/-- The last-two-label reduction added to the Domain Index for domains with
more than two dot-separated labels. -/
def primaryDomain (d : String) : Option String :=
  let parts := splitDots d
  if 2 < parts.length then
    some (String.intercalate "." (parts.drop (parts.length - 2)))
  else none

/-- The `all_domains` set of `classify_cookies` (the Domain Index): every
extracted domain plus, for domains of more than two labels, their
last-two-label reduction. Modelled as a deduplicated list; the classifier
consumes only membership, and the summary only cardinality, both
order-independent. -/
def domainIndex (cookies : List Cookie) : List String :=
  (extractedDomains cookies ++
    (extractedDomains cookies).filterMap primaryDomain).dedup

/-- Python `round(x, 1)`: one-decimal rounding, modelled as exact rounding
of `10 * x` to the nearest integer (float bankers-rounding of exact-tie
cases is idealized to round-half-up; no property proved here touches a
tie). -/
def round1 (x : ℚ) : ℚ := ((round (10 * x) : ℤ) : ℚ) / 10

/-- The `summary` dict produced by `classify_cookies`. -/
structure Summary where
  total_cookies : Nat
  tracking_cookies : Nat
  non_tracking_cookies : Nat
  tracking_percentage : ℚ
  unique_domains : Nat
  third_party_cookies : Nat
  first_party_cookies : Nat
deriving DecidableEq, Repr

/-- The result dict of `classify_cookies`; the per-cookie classification
that the Python code stores into `cookie["classification"]` is carried
alongside each cookie. -/
structure ClassifyResult where
  tracking : List (Cookie × Classification)
  non_tracking : List (Cookie × Classification)
  summary : Summary
deriving DecidableEq, Repr

/-- The per-cookie loop of `classify_cookies`: each cookie paired with its
classification against the batch Domain Index, in batch order. -/
def classifyAll (now : ℚ) (cookies : List Cookie) : List (Cookie × Classification) :=
  cookies.map fun c => (c, classifyCookie now c (domainIndex cookies))

/-- `CookieClassifier.classify_cookies`: classify every cookie against the
Domain Index built over the whole batch, split into tracking and
non-tracking sequences, and fold the summary counts.
`first_party_cookies = total_cookies - third_party_cookies` as in source;
`tracking_percentage` uses `0` when the batch is empty. -/
def classifyCookies (now : ℚ) (cookies : List Cookie) : ClassifyResult :=
  let classified := classifyAll now cookies
  let tracking := classified.filter fun p => p.2.is_tracking
  let non_tracking := classified.filter fun p => !p.2.is_tracking
  let thirdParty := (classified.filter fun p => p.2.is_third_party).length
  let total := cookies.length
  let pct := round1 (if 0 < total then ((tracking.length : ℚ) / (total : ℚ)) * 100 else 0)
  { tracking := tracking
    non_tracking := non_tracking
    summary :=
      { total_cookies := total
        tracking_cookies := tracking.length
        non_tracking_cookies := non_tracking.length
        tracking_percentage := pct
        unique_domains := (domainIndex cookies).length
        third_party_cookies := thirdParty
        first_party_cookies := total - thirdParty } }

/-! ## General lemmas -/

/-- A boolean predicate splits a list into its `filter` and the filter of
its negation, with lengths summing to the whole. -/
theorem length_filter_bool_partition {α : Type} (p : α → Bool) (l : List α) :
    (l.filter p).length + (l.filter fun a => !(p a)).length = l.length := by
  induction l with
  | nil => rfl
  | cons a l ih =>
    by_cases h : p a = true <;> simp [List.filter_cons, h] <;> omega

/-! ## Claim theorems -/

/-- Claim C1: in the batch with cookies `example.com`/`session` and
`shop.example.com`/`cart`, both cookies — in particular the second — are
classified first-party (`is_third_party = false`) through the batch Domain
Index; and the Domain Index first-party test runs before the generic
keyword sweep: a cookie on `connect.example.com` (whose domain contains
the rule-6 keyword `connect`) is still first-party when the index holds
`example.com`, even though the keyword sweep alone would flag it. -/
theorem c1_first_party_before_keyword_sweep :
    ((classifyAll 0
        [{ name := "session", domain := some "example.com" },
         { name := "cart", domain := some "shop.example.com" }]).map
      fun p => p.2.is_third_party) = [false, false] ∧
    isThirdPartyCookie { name := "cart", domain := some "connect.example.com" }
      ["example.com"] = (false, "") ∧
    (thirdPartyPatterns.any fun p =>
      substr p (toLowerStr "connect.example.com")) = true := by
  refine ⟨by decide, by decide, by decide⟩

/-- A Chromium row whose flag columns disagree with its timestamp column:
`has_expires = 1` and `is_persistent = 1` while `expires_utc = 0`. -/
def c2_inconsistentChromeRow : ChromeRow :=
  { host_key := "example.com"
    name := "a"
    expires_utc := 0
    has_expires := 1
    is_persistent := 1 }

/-- Claim C2, counterexample: the Chromium normalizer takes `session` from
the `has_expires` column and `expires` from the `expires_utc` column
independently, so on a row with `has_expires = 1` but `expires_utc = 0`
the produced cookie has `expires` absent yet `session = false`, refuting
the claimed invariant as stated over every extracted record. -/
theorem c2_invariant_fails_on_chrome_row :
    ¬ ((chromeRowToCookie c2_inconsistentChromeRow).session = true ↔
       ((chromeRowToCookie c2_inconsistentChromeRow).expires = none ∨
        (chromeRowToCookie c2_inconsistentChromeRow).expires = some 0)) := by
  decide

/-- Claim C2, amended: Firefox-dialect records always satisfy the
invariant with `expires = some 0` as the zero-equivalent form (the raw
`expiry` is carried verbatim); Chromium-dialect records take `session`
from `not has_expires` and `persistent` from `is_persistent`, so they
satisfy `session ↔ expires absent` and `persistent = !session` exactly
when the row flags are mutually consistent
(`has_expires ≠ 0 ↔ expires_utc ≠ 0` and `is_persistent ≠ 0 ↔ has_expires ≠ 0`). -/
theorem c2_session_persistent_invariant (fr : FirefoxRow) (cr : ChromeRow)
    (h1 : cr.has_expires ≠ 0 ↔ cr.expires_utc ≠ 0)
    (h2 : cr.is_persistent ≠ 0 ↔ cr.has_expires ≠ 0) :
    ((firefoxRowToCookie fr).session = true ↔
      (firefoxRowToCookie fr).expires = some 0) ∧
    (firefoxRowToCookie fr).persistent = !(firefoxRowToCookie fr).session ∧
    ((chromeRowToCookie cr).session = true ↔
      (chromeRowToCookie cr).expires = none) ∧
    (chromeRowToCookie cr).persistent = !(chromeRowToCookie cr).session := by
  refine ⟨?_, ?_, ?_, ?_⟩
  · simp [firefoxRowToCookie]
  · simp [firefoxRowToCookie, bne]
  · by_cases he : cr.expires_utc = 0
    · have hh : cr.has_expires = 0 := by
        by_contra hne
        exact (h1.mp hne) he
      simp [chromeRowToCookie, he, hh]
    · have hh : cr.has_expires ≠ 0 := h1.mpr he
      simp [chromeRowToCookie, he, hh, chromeTimeToUnix]
  · by_cases hh : cr.has_expires = 0
    · have hp : cr.is_persistent = 0 := by
        by_contra hne
        exact (h2.mp hne) hh
      simp [chromeRowToCookie, hh, hp]
    · have hp : cr.is_persistent ≠ 0 := h2.mpr hh
      have e1 : (cr.is_persistent != 0) = true := bne_iff_ne.mpr hp
      have e2 : (cr.has_expires != 0) = true := bne_iff_ne.mpr hh
      simp [chromeRowToCookie, e1, e2]

/-- A consistent Firefox row with `expiry = 0`. -/
def c2_okFirefoxRow : FirefoxRow := { host := "example.com", expiry := 0 }

/-- A consistent Chromium row: a nonzero timestamp with `has_expires` and
`is_persistent` both set. -/
def c2_okChromeRow : ChromeRow := { host_key := "example.com", expires_utc := 5, has_expires := 1, is_persistent := 1 }

/-- Witness for the amended C2 invariant at a consistent Firefox row and a
consistent Chromium row. -/
theorem c2_session_persistent_invariant_witness :
    ((firefoxRowToCookie c2_okFirefoxRow).session = true ↔
      (firefoxRowToCookie c2_okFirefoxRow).expires = some 0) ∧
    (firefoxRowToCookie c2_okFirefoxRow).persistent =
      !(firefoxRowToCookie c2_okFirefoxRow).session ∧
    ((chromeRowToCookie c2_okChromeRow).session = true ↔
      (chromeRowToCookie c2_okChromeRow).expires = none) ∧
    (chromeRowToCookie c2_okChromeRow).persistent =
      !(chromeRowToCookie c2_okChromeRow).session :=
  c2_session_persistent_invariant c2_okFirefoxRow c2_okChromeRow
    (by decide) (by decide)

/-- Claim C3, counterexample: by the stated formula the raw Chrome value
`13275776400000000` converts to `1631302800` Unix seconds, which differs
from the claimed `1631016400` by `286400` seconds — more than three days,
not attributable to rounding. -/
theorem c3_sample_value_wrong :
    chromeTimeToUnix 13275776400000000 = some 1631302800 ∧
    chromeTimeToUnix 13275776400000000 ≠ some 1631016400 ∧
    (1631302800 : ℚ) - 1631016400 = 286400 := by
  refine ⟨?_, ?_, by norm_num⟩ <;> unfold chromeTimeToUnix <;> norm_num

/-- Claim C3, amended: the codec maps raw value `13275776400000000` to
Unix seconds `1631302800` by `unix_seconds = value / 1_000_000 -
11644473600`, and maps `0` (or an absent value) to `none` rather than an
epoch-1601 timestamp. -/
theorem c3_chrome_time_codec :
    chromeTimeToUnix 13275776400000000 = some 1631302800 ∧
    chromeTimeToUnix 0 = none := by
  constructor
  · unfold chromeTimeToUnix
    norm_num
  · rfl

/-- Claim C4, counterexample: a store failure and a successful extraction
of zero cookies produce the very same value. `extract` over an unreadable
Chromium store returns `[]`, equal to `extract` over a readable Chromium
store with no rows; an unsupported browser name (the `ValueError` path)
with a perfectly readable store also returns plain `[]`. -/
theorem c4_failure_indistinguishable_from_empty :
    extract "chrome" StoreData.unreadable =
      extract "chrome" (StoreData.chrome []) ∧
    extract "chrome" (StoreData.chrome []) = [] ∧
    extract "safari" (StoreData.firefox [{ host := "example.com" }]) = [] := by
  refine ⟨rfl, rfl, rfl⟩

/-- Claim C4, amended: per-store errors (unreadable store, unsupported
schema, invalid browser) do abort that pass of the extraction, but they
are reported only by printing a message; `extract` returns the empty list
on every failure path, a value identical to a successful extraction that
found zero cookies, so the caller cannot distinguish the two from the
return value. -/
theorem c4_every_failure_returns_nil :
    (∀ s : StoreData, extract "safari" s = []) ∧
    extract "chrome" StoreData.unreadable = [] ∧
    extract "edge" StoreData.unreadable = [] ∧
    extract "firefox" StoreData.unreadable = [] ∧
    (∀ rows, extract "chrome" (StoreData.firefox rows) = []) ∧
    (∀ rows, extract "firefox" (StoreData.chrome rows) = []) ∧
    extract "chrome" (StoreData.chrome []) = [] := by
  exact ⟨fun s => rfl, rfl, rfl, rfl, fun rows => rfl, fun rows => rfl, rfl⟩

/-- A Firefox row whose `expiry` column is `0`. -/
def c5_sessionFirefoxRow : FirefoxRow :=
  { host := "example.com"
    name := "a"
    expiry := 0 }

/-- Claim C5, counterexample: the Firefox normalizer copies the raw
`expiry` column verbatim into `expires` (`"expires": row[4]`), so a row
with `expiry = 0` yields `expires = some 0` — the literal zero is carried
into the canonical record instead of becoming `none`. -/
theorem c5_zero_expiry_not_none :
    (firefoxRowToCookie c5_sessionFirefoxRow).expires ≠ none ∧
    (firefoxRowToCookie c5_sessionFirefoxRow).expires = some 0 := by
  constructor <;> simp [firefoxRowToCookie, c5_sessionFirefoxRow]

/-- Claim C5, amended: for every Firefox-dialect row the normalized
`expires` field carries the raw `expiry` value unchanged — in particular a
row with `expiry = 0` produces `expires = some 0` (a zero-equivalent
value, flagged as a session cookie only through the `session`/`persistent`
fields), never `none`. -/
theorem c5_expires_raw_copy (r : FirefoxRow) :
    (firefoxRowToCookie r).expires = some (r.expiry : ℚ) := rfl

/-- The C6 test cookie: `_ga` on `doubleclick.net`, expiring 400 days
after the evaluation instant `1700000000`, secure, `SameSite=None`
(Chromium code `0`). -/
def c6_gaCookie : Cookie :=
  { name := "_ga"
    domain := some "doubleclick.net"
    expires := some (1700000000 + 400 * 86400)
    secure := true
    sameSite := some 0 }

/-- Claim C6: classifying the `_ga`/`doubleclick.net` cookie (expiry 400
days out, secure, SameSite=None) against the Domain Index of its own
single-cookie batch reports `is_tracking`, `is_third_party`,
`features.known_tracker` and `features.long_expiration` all true, with a
non-empty reason sequence. -/
theorem c6_ga_doubleclick_classification :
    (classifyCookie 1700000000 c6_gaCookie (domainIndex [c6_gaCookie])).is_tracking = true ∧
    (classifyCookie 1700000000 c6_gaCookie (domainIndex [c6_gaCookie])).is_third_party = true ∧
    (classifyCookie 1700000000 c6_gaCookie (domainIndex [c6_gaCookie])).known_tracker = true ∧
    (classifyCookie 1700000000 c6_gaCookie (domainIndex [c6_gaCookie])).long_expiration = true ∧
    (classifyCookie 1700000000 c6_gaCookie (domainIndex [c6_gaCookie])).reasons ≠ [] := by
  refine ⟨by decide, by decide, by decide, ?_, by decide⟩
  simp [classifyCookie, longExpiration, c6_gaCookie]

/-- Claim C7: a cookie without a `sameSite` attribute is never treated as
`SameSite=None`: rule 4 of the third-party test does not fire on it, and
the third-party verdict is unchanged by the `secure` flag. -/
theorem c7_missing_samesite_never_none (c : Cookie) (ds : List String)
    (h : c.sameSite = none) :
    sameSiteNoneSecure c = false ∧
    ∀ b : Bool, isThirdPartyCookie { c with secure := b } ds = isThirdPartyCookie c ds := by
  constructor
  · simp [sameSiteNoneSecure, h]
  · intro b
    simp [isThirdPartyCookie, sameSiteNoneSecure, h]

/-- Witness for C7 at a secure cookie lacking the `sameSite` attribute. -/
theorem c7_missing_samesite_never_none_witness :
    sameSiteNoneSecure { name := "sess", domain := some "example.com", secure := true } = false ∧
    ∀ b : Bool, isThirdPartyCookie
        { ({ name := "sess", domain := some "example.com", secure := true } : Cookie) with secure := b }
        ["example.com"] =
      isThirdPartyCookie { name := "sess", domain := some "example.com", secure := true }
        ["example.com"] :=
  c7_missing_samesite_never_none
    { name := "sess", domain := some "example.com", secure := true }
    ["example.com"] rfl

/-- Claim C8: both partition identities of the summary hold for every
batch: first-party plus third-party counts equal the total, and tracking
plus non-tracking counts equal the total. -/
theorem c8_summary_partitions (now : ℚ) (cookies : List Cookie) :
    (classifyCookies now cookies).summary.first_party_cookies +
      (classifyCookies now cookies).summary.third_party_cookies =
      (classifyCookies now cookies).summary.total_cookies ∧
    (classifyCookies now cookies).summary.tracking_cookies +
      (classifyCookies now cookies).summary.non_tracking_cookies =
      (classifyCookies now cookies).summary.total_cookies := by
  have hlen : (classifyAll now cookies).length = cookies.length := by
    simp [classifyAll]
  constructor
  · have hle : ((classifyAll now cookies).filter fun p => p.2.is_third_party).length ≤
        cookies.length := hlen ▸ List.length_filter_le _ _
    exact Nat.sub_add_cancel hle
  · have h2 := length_filter_bool_partition
      (fun p : Cookie × Classification => p.2.is_tracking) (classifyAll now cookies)
    rw [hlen] at h2
    exact h2

/-- Claim C9: an empty batch yields `tracking_percentage = 0` through the
guarded branch (no division is attempted), and for every batch the
percentage is an integer number of tenths, i.e. rounded to one decimal
place. -/
theorem c9_tracking_percentage_safe :
    (∀ now : ℚ, (classifyCookies now []).summary.tracking_percentage = 0) ∧
    ∀ (now : ℚ) (cookies : List Cookie), ∃ k : ℤ,
      (classifyCookies now cookies).summary.tracking_percentage = (k : ℚ) / 10 := by
  constructor
  · intro now
    show round1 (if 0 < (0 : Nat) then ((0 : ℚ) / 0) * 100 else 0) = 0
    norm_num [round1]
  · intro now cookies
    exact ⟨_, rfl⟩

/-- Claim C10: every cookie of a batch has its normalized domain in the
Domain Index built over that batch, so an in-batch cookie with a
non-empty domain that matches no expanded tracking-domain substring, no
known tracking cookie name, and not the SameSite=None-with-secure rule is
necessarily judged first-party — the keyword sweep and the
default-to-third-party fallback are unreachable for in-batch cookies. -/
theorem c10_in_batch_first_party (now : ℚ) (cookies : List Cookie)
    (c : Cookie) (d : String) (hc : c ∈ cookies) (hd : c.domain = some d)
    (hne : stripDots d ≠ "")
    (hexp : expandedTrackingDomains.find? (fun t => substr t (stripDots d)) = none)
    (hname : trackingCookieNames.contains c.name = false)
    (hss : sameSiteNoneSecure c = false) :
    stripDots d ∈ domainIndex cookies ∧
    isThirdPartyCookie c (domainIndex cookies) = (false, "") ∧
    (classifyCookie now c (domainIndex cookies)).is_third_party = false := by
  have hmem : stripDots d ∈ domainIndex cookies := by
    have h1 : d ∈ cookies.filterMap Cookie.domain :=
      List.mem_filterMap.mpr ⟨c, hc, hd⟩
    have h2 : stripDots d ∈ extractedDomains cookies := by
      unfold extractedDomains
      exact List.mem_dedup.mpr (List.mem_map.mpr ⟨d, h1, rfl⟩)
    unfold domainIndex
    exact List.mem_dedup.mpr (List.mem_append_left _ h2)
  have hfp : firstPartyMatch (stripDots d) (domainIndex cookies) = true := by
    unfold firstPartyMatch
    exact List.any_eq_true.mpr ⟨stripDots d, hmem, by simp⟩
  have htp : isThirdPartyCookie c (domainIndex cookies) = (false, "") := by
    unfold isThirdPartyCookie
    rw [hd]
    simp only [Option.getD_some]
    rw [if_neg hne, hexp]
    simp only [hname, hss, hfp, Bool.false_eq_true, if_false, if_true]
  refine ⟨hmem, htp, ?_⟩
  simp [classifyCookie, htp]

/-- Witness for C10 at the single-cookie batch `cart`/`shop.example.com`. -/
theorem c10_in_batch_first_party_witness :
    stripDots "shop.example.com" ∈
      domainIndex [{ name := "cart", domain := some "shop.example.com" }] ∧
    isThirdPartyCookie { name := "cart", domain := some "shop.example.com" }
      (domainIndex [{ name := "cart", domain := some "shop.example.com" }]) = (false, "") ∧
    (classifyCookie 0 { name := "cart", domain := some "shop.example.com" }
      (domainIndex [{ name := "cart", domain := some "shop.example.com" }])).is_third_party = false :=
  c10_in_batch_first_party 0 [{ name := "cart", domain := some "shop.example.com" }]
    { name := "cart", domain := some "shop.example.com" } "shop.example.com"
    (by simp) rfl (by decide) (by decide) (by decide) (by decide)

end CookieAnalyzer
